import Mathlib

/-!
Shallow embedding of the password generator source file
(password-generator.py).  Character classes are lists of characters,
a password is a list of characters, and the cryptographically secure
random source of the program is modelled as an explicit stream of
natural numbers (one value per draw) that is threaded through the
operations, so that theorems can speak about which part of the stream
each operation consumes.
-/

namespace PasswordGenerator

/-- Python string.ascii_lowercase. -/
def ascii_lowercase : List Char :=
  ['a', 'b', 'c', 'd', 'e', 'f', 'g', 'h', 'i', 'j', 'k', 'l', 'm',
   'n', 'o', 'p', 'q', 'r', 's', 't', 'u', 'v', 'w', 'x', 'y', 'z']

/-- Python string.ascii_uppercase. -/
def ascii_uppercase : List Char :=
  ['A', 'B', 'C', 'D', 'E', 'F', 'G', 'H', 'I', 'J', 'K', 'L', 'M',
   'N', 'O', 'P', 'Q', 'R', 'S', 'T', 'U', 'V', 'W', 'X', 'Y', 'Z']

/-- Python string.digits. -/
def digits : List Char :=
  ['0', '1', '2', '3', '4', '5', '6', '7', '8', '9']

/-- Python string.punctuation (characters 34, 39, 94, 96, 123, 125 and
126 are the double quote, the apostrophe, the caret, the backtick, the
two braces and the tilde). -/
def punctuation : List Char :=
  ['!', Char.ofNat 34, '#', '$', '%', '&', Char.ofNat 39, '(', ')',
   '*', '+', ',', '-', '.', '/', ':', ';', '<', '=', '>', '?', '@',
   '[', '\\', ']', Char.ofNat 94, '_', Char.ofNat 96, Char.ofNat 123,
   '|', Char.ofNat 125, Char.ofNat 126]

/-- The two kinds of exceptions the source can raise from
generate_password: ValueError (the InvalidParameter taxon of the
specification) and RuntimeError (the requirement failure). -/
inductive GenError where
  | valueError : String → GenError
  | runtimeError : String → GenError
deriving DecidableEq

/-- Python str.replace(c, two quotes): remove every occurrence of a
character. -/
def removeChar (s : List Char) (c : Char) : List Char :=
  s.filter (fun x => x != c)

/-- PasswordGenerator._validate_parameters: the three checks, in
source order, with the source's messages; none means no exception. -/
def validate_parameters (length : Nat) (use_lowercase use_uppercase use_digits use_symbols : Bool) :
    Option GenError :=
  if length < 8 then
    some (GenError.valueError "Password length must be at least 8 characters")
  else if length > 128 then
    some (GenError.valueError "Password length cannot exceed 128 characters")
  else if !(use_lowercase || use_uppercase || use_digits || use_symbols) then
    some (GenError.valueError "At least one character set must be selected")
  else
    none

/-- PasswordGenerator._build_character_pool: concatenation of the
enabled classes, each filtered when exclude_similar is set (the symbol
class is never filtered). -/
def build_character_pool (use_lowercase use_uppercase use_digits use_symbols exclude_similar : Bool) :
    List Char :=
  (if use_lowercase then
     (if exclude_similar then removeChar (removeChar ascii_lowercase 'l') 'o'
      else ascii_lowercase)
   else [])
  ++ (if use_uppercase then
        (if exclude_similar then removeChar (removeChar ascii_uppercase 'I') 'O'
         else ascii_uppercase)
      else [])
  ++ (if use_digits then
        (if exclude_similar then removeChar (removeChar digits '0') '1'
         else digits)
      else [])
  ++ (if use_symbols then punctuation else [])

/-- The random source: an infinite stream of draws, one natural
number per call to secrets.choice. -/
abbrev RandSource : Type := Nat → Nat

/-- Advance the stream past its first n values. -/
def RandSource.drop (r : RandSource) (n : Nat) : RandSource :=
  fun i => r (i + n)

/-- secrets.choice(pool) applied to one value of the random stream: a
uniform value selects the character at position value mod pool length
(the empty-pool case never arises after validation). -/
def chooseChar (pool : List Char) (value : Nat) : Char :=
  match pool with
  | [] => ' '
  | c :: cs => (c :: cs).get ⟨value % (c :: cs).length, Nat.mod_lt _ (Nat.succ_pos _)⟩

/-- PasswordGenerator._generate_secure_password: draw length
characters from the pool, consuming one stream value per character,
and return the drawn password together with the rest of the stream. -/
def generate_secure_password (pool : List Char) : Nat → RandSource → List Char × RandSource
  | 0, r => ([], r)
  | Nat.succ n, r =>
    let c := chooseChar pool (r 0)
    let rest := generate_secure_password pool n (fun i => r (i + 1))
    (c :: rest.1, rest.2)

/-- The requirements table of
PasswordGenerator._ensure_password_requirements: enabled flag,
unfiltered canonical character set, class name, in source order. -/
def requirements (use_lowercase use_uppercase use_digits use_symbols : Bool) :
    List (Bool × List Char × String) :=
  [(use_lowercase, ascii_lowercase, "lowercase"),
   (use_uppercase, ascii_uppercase, "uppercase"),
   (use_digits, digits, "digits"),
   (use_symbols, punctuation, "symbols")]

/-- The loop of PasswordGenerator._ensure_password_requirements: raise
RuntimeError at the first enabled class with no character of its
canonical set in the password. -/
def check_requirements : List (Bool × List Char × String) → List Char → Option GenError
  | [], _ => none
  | (required, char_set, name) :: rest, password =>
    if required && !(password.any (fun c => char_set.contains c)) then
      some (GenError.runtimeError ("Failed to generate password with " ++ name ++ " characters"))
    else
      check_requirements rest password

/-- PasswordGenerator._ensure_password_requirements. -/
def ensure_password_requirements (password : List Char)
    (use_lowercase use_uppercase use_digits use_symbols : Bool) : Option GenError :=
  check_requirements (requirements use_lowercase use_uppercase use_digits use_symbols) password

/-- PasswordGenerator.generate_password: validate, build the pool,
draw, check requirements; the result is either the password or the
exception raised, paired with the part of the random stream not
consumed by the call. -/
def generate_password (length : Nat)
    (use_lowercase use_uppercase use_digits use_symbols exclude_similar : Bool)
    (r : RandSource) : Except GenError (List Char) × RandSource :=
  match validate_parameters length use_lowercase use_uppercase use_digits use_symbols with
  | some e => (Except.error e, r)
  | none =>
    let char_pool := build_character_pool use_lowercase use_uppercase use_digits use_symbols
      exclude_similar
    let drawn := generate_secure_password char_pool length r
    match ensure_password_requirements drawn.1 use_lowercase use_uppercase use_digits use_symbols with
    | some e => (Except.error e, drawn.2)
    | none => (Except.ok drawn.1, drawn.2)

/-- The loop of PasswordGenerator.generate_multiple_passwords, on the
number of iterations of range(count): each iteration is one full call
to generate_password on the remaining stream; a raised exception
propagates out of the comprehension. -/
def generate_many : Nat → Nat → Bool → Bool → Bool → Bool → Bool → RandSource →
    Except GenError (List (List Char)) × RandSource
  | 0, _, _, _, _, _, _, r => (Except.ok [], r)
  | Nat.succ n, length, ul, uu, ud, us, es, r =>
    match generate_password length ul uu ud us es r with
    | (Except.error e, r1) => (Except.error e, r1)
    | (Except.ok pw, r1) =>
      match generate_many n length ul uu ud us es r1 with
      | (Except.error e, r2) => (Except.error e, r2)
      | (Except.ok pws, r2) => (Except.ok (pw :: pws), r2)

/-- PasswordGenerator.generate_multiple_passwords: count is a Python
int, and range(count) is empty whenever count is not positive. -/
def generate_multiple_passwords (count : Int) (length : Nat)
    (use_lowercase use_uppercase use_digits use_symbols exclude_similar : Bool)
    (r : RandSource) : Except GenError (List (List Char)) × RandSource :=
  generate_many count.toNat length use_lowercase use_uppercase use_digits use_symbols
    exclude_similar r

/-- The dictionary returned by
PasswordGenerator.estimate_password_strength. -/
structure StrengthReport where
  score : Nat
  strength : String
  length : Nat
  has_lowercase : Bool
  has_uppercase : Bool
  has_digits : Bool
  has_symbols : Bool
deriving DecidableEq

/-- PasswordGenerator.estimate_password_strength: class presence is
tested against the full canonical alphabets, the score is
min(length times 4, 40) plus 15 per present class, and the label comes
from inclusive thresholds checked from highest to lowest. -/
def estimate_password_strength (password : List Char) : StrengthReport :=
  let length := password.length
  let has_lower := password.any (fun c => ascii_lowercase.contains c)
  let has_upper := password.any (fun c => ascii_uppercase.contains c)
  let has_digit := password.any (fun c => digits.contains c)
  let has_symbol := password.any (fun c => punctuation.contains c)
  let score := min (length * 4) 40
    + (if has_lower then 15 else 0)
    + (if has_upper then 15 else 0)
    + (if has_digit then 15 else 0)
    + (if has_symbol then 15 else 0)
  let strength :=
    if score ≥ 80 then "Very Strong"
    else if score ≥ 60 then "Strong"
    else if score ≥ 40 then "Moderate"
    else if score ≥ 20 then "Weak"
    else "Very Weak"
  ⟨score, strength, length, has_lower, has_upper, has_digit, has_symbol⟩

/-- Score formula transcribed from the words of the specification, for
comparison with the embedded source function. -/
def spec_score (password : List Char) : Nat :=
  min (password.length * 4) 40
    + (if password.any (fun c => ascii_lowercase.contains c) then 15 else 0)
    + (if password.any (fun c => ascii_uppercase.contains c) then 15 else 0)
    + (if password.any (fun c => digits.contains c) then 15 else 0)
    + (if password.any (fun c => punctuation.contains c) then 15 else 0)

/-- Label thresholds transcribed from the words of the specification:
inclusive lower bounds checked from highest to lowest. -/
def spec_label (score : Nat) : String :=
  if 80 ≤ score then "Very Strong"
  else if 60 ≤ score then "Strong"
  else if 40 ≤ score then "Moderate"
  else if 20 ≤ score then "Weak"
  else "Very Weak"

/-- Recogniser for a raised ValueError, the InvalidParameter taxon. -/
def is_value_error : Except GenError (List Char) → Bool
  | Except.error (GenError.valueError _) => true
  | _ => false

/-! Helper lemmas about the embedded operations. -/

/-- The drawing loop produces exactly the requested number of characters. -/
theorem generate_secure_password_length (pool : List Char) (n : Nat) (r : RandSource) :
    (generate_secure_password pool n r).1.length = n := by
  induction n generalizing r with
  | zero => rfl
  | succ k ih => simp [generate_secure_password, ih]

/-- One draw from a nonempty pool yields a character of the pool. -/
theorem chooseChar_mem (pool : List Char) (h : pool ≠ []) (value : Nat) :
    chooseChar pool value ∈ pool := by
  match pool with
  | [] => exact absurd rfl h
  | c :: cs => exact List.get_mem _ _ _

/-- Every character drawn from a nonempty pool belongs to the pool. -/
theorem generate_secure_password_mem (pool : List Char) (h : pool ≠ []) (n : Nat)
    (r : RandSource) : ∀ c ∈ (generate_secure_password pool n r).1, c ∈ pool := by
  induction n generalizing r with
  | zero => intro c hc; simp [generate_secure_password] at hc
  | succ k ih =>
    intro c hc
    simp only [generate_secure_password] at hc
    rcases List.mem_cons.mp hc with h1 | h1
    · rw [h1]; exact chooseChar_mem pool h (r 0)
    · exact ih _ _ h1

/-- Successful validation means the length is in range and some class
is enabled. -/
theorem validate_parameters_none {length : Nat} {ul uu ud us : Bool}
    (h : validate_parameters length ul uu ud us = none) :
    8 ≤ length ∧ length ≤ 128 ∧ (ul || uu || ud || us) = true := by
  unfold validate_parameters at h
  split_ifs at h with h1 h2 h3
  refine ⟨by omega, by omega, ?_⟩
  revert h3
  cases ul <;> cases uu <;> cases ud <;> cases us <;> decide

/-- With some class enabled, the character pool is nonempty. -/
theorem pool_ne_nil : ∀ ul uu ud us es : Bool, (ul || uu || ud || us) = true →
    build_character_pool ul uu ud us es ≠ [] := by decide

/-- With exclude_similar set, no visually similar character survives
in the pool. -/
theorem pool_no_similar : ∀ ul uu ud us : Bool, ∀ c ∈ build_character_pool ul uu ud us true,
    ¬(c = 'l' ∨ c = 'o' ∨ c = 'I' ∨ c = 'O' ∨ c = '0' ∨ c = '1') := by decide

/-- Destructuring a successful generate_password call: validation
passed, the password is the drawn sequence, and the requirement check
passed on it. -/
theorem generate_password_ok {length : Nat} {ul uu ud us es : Bool} {r : RandSource}
    {pw : List Char}
    (h : (generate_password length ul uu ud us es r).1 = Except.ok pw) :
    validate_parameters length ul uu ud us = none ∧
    pw = (generate_secure_password (build_character_pool ul uu ud us es) length r).1 ∧
    ensure_password_requirements pw ul uu ud us = none := by
  unfold generate_password at h
  split at h
  · simp at h
  · next hv =>
    simp only at h
    split at h
    · simp at h
    · next hc =>
      simp only [Except.ok.injEq] at h
      subst h
      exact ⟨hv, rfl, hc⟩

/-- Successful requirement check: every enabled class has a character
of its canonical alphabet in the password. -/
theorem ensure_none {pw : List Char} {ul uu ud us : Bool}
    (h : ensure_password_requirements pw ul uu ud us = none) :
    (ul = true → pw.any (fun c => ascii_lowercase.contains c) = true) ∧
    (uu = true → pw.any (fun c => ascii_uppercase.contains c) = true) ∧
    (ud = true → pw.any (fun c => digits.contains c) = true) ∧
    (us = true → pw.any (fun c => punctuation.contains c) = true) := by
  cases ul <;> cases uu <;> cases ud <;> cases us <;>
    simp_all [ensure_password_requirements, requirements, check_requirements] <;>
    split_ifs at h <;> simp_all

/-! Claim theorems. -/

/-- Claim C1: the specification (and the docstring of
_ensure_password_requirements itself) demands that a drawn sequence
missing an enabled class be regenerated, failing only after a large
finite number of redraw attempts.  The code instead raises
RuntimeError at once: at the failing input below (a valid request,
length 8, lowercase and digits enabled, draws selecting only
lowercase characters) generate_password returns the requirement error
after consuming exactly the eight draws of the single attempt, with
no redraw. -/
theorem c1_no_redraw_on_missing_class :
    (generate_password 8 true false true false false (fun _ => 0)).1 =
      Except.error
        (GenError.runtimeError "Failed to generate password with digits characters") ∧
    (generate_password 8 true false true false false (fun _ => 0)).2 =
      RandSource.drop (fun _ => 0) 8 := by
  constructor <;> rfl

/-- Claim C2: a length below 8 or above 128, or no enabled class,
makes generate_password raise ValueError (the InvalidParameter taxon)
with the random stream returned untouched (the error precedes any
random draw) and no password produced. -/
theorem c2_invalid_parameter (length : Nat) (ul uu ud us es : Bool) (r : RandSource)
    (h : length < 8 ∨ 128 < length ∨ (ul = false ∧ uu = false ∧ ud = false ∧ us = false)) :
    is_value_error (generate_password length ul uu ud us es r).1 = true ∧
    (generate_password length ul uu ud us es r).2 = r := by
  have hv : ∃ msg, validate_parameters length ul uu ud us =
      some (GenError.valueError msg) := by
    unfold validate_parameters
    rcases h with h | h | ⟨h1, h2, h3, h4⟩
    · rw [if_pos h]; exact ⟨_, rfl⟩
    · rw [if_neg (by omega), if_pos h]; exact ⟨_, rfl⟩
    · subst h1; subst h2; subst h3; subst h4
      split_ifs <;> first | exact ⟨_, rfl⟩ | simp_all
  obtain ⟨msg, hv⟩ := hv
  constructor
  · unfold generate_password; rw [hv]; rfl
  · unfold generate_password; rw [hv]

/-- Witness for C2 at the concrete invalid length 5. -/
theorem c2_invalid_parameter_witness :
    is_value_error (generate_password 5 true true true true true (fun _ => 0)).1 = true ∧
    (generate_password 5 true true true true true (fun _ => 0)).2 = (fun _ => 0) :=
  c2_invalid_parameter 5 true true true true true (fun _ => 0) (Or.inl (by decide))

/-- Claim C3: whenever generate_password returns a password rather
than raising, the password has exactly the requested length. -/
theorem c3_exact_length (length : Nat) (ul uu ud us es : Bool) (r : RandSource)
    (pw : List Char)
    (h : (generate_password length ul uu ud us es r).1 = Except.ok pw) :
    pw.length = length := by
  obtain ⟨-, hpw, -⟩ := generate_password_ok h
  rw [hpw]
  exact generate_secure_password_length _ _ _

/-- Witness for C3: a lowercase-only request of length 8 with a
constant random stream returns an eight-character password. -/
theorem c3_exact_length_witness :
    (generate_password 8 true false false false false (fun _ => 0)).1 =
      Except.ok (List.replicate 8 'a') ∧
    (List.replicate 8 'a').length = 8 :=
  ⟨rfl, c3_exact_length 8 true false false false false (fun _ => 0)
    (List.replicate 8 'a') rfl⟩

/-- Claim C4: whenever generate_password returns a password, every
enabled class contributes at least one character of its full
unfiltered canonical alphabet to it. -/
theorem c4_all_classes_present (length : Nat) (ul uu ud us es : Bool) (r : RandSource)
    (pw : List Char)
    (h : (generate_password length ul uu ud us es r).1 = Except.ok pw) :
    (ul = true → ∃ c ∈ pw, c ∈ ascii_lowercase) ∧
    (uu = true → ∃ c ∈ pw, c ∈ ascii_uppercase) ∧
    (ud = true → ∃ c ∈ pw, c ∈ digits) ∧
    (us = true → ∃ c ∈ pw, c ∈ punctuation) := by
  obtain ⟨-, -, hens⟩ := generate_password_ok h
  obtain ⟨h1, h2, h3, h4⟩ := ensure_none hens
  exact ⟨fun hb => by simpa using h1 hb, fun hb => by simpa using h2 hb,
    fun hb => by simpa using h3 hb, fun hb => by simpa using h4 hb⟩

/-- Witness for C4: a lowercase-only request of length 8. -/
theorem c4_all_classes_present_witness :
    (generate_password 8 true false false false false (fun _ => 0)).1 =
      Except.ok (List.replicate 8 'a') ∧
    ((true = true → ∃ c ∈ List.replicate 8 'a', c ∈ ascii_lowercase) ∧
     (false = true → ∃ c ∈ List.replicate 8 'a', c ∈ ascii_uppercase) ∧
     (false = true → ∃ c ∈ List.replicate 8 'a', c ∈ digits) ∧
     (false = true → ∃ c ∈ List.replicate 8 'a', c ∈ punctuation)) :=
  ⟨rfl, c4_all_classes_present 8 true false false false false (fun _ => 0)
    (List.replicate 8 'a') rfl⟩

/-- Claim C5: with exclude_similar set, no character of a returned
password is one of l, o, I, O, 0, 1: the filtered classes cannot
produce them and the unfiltered symbol class does not contain them. -/
theorem c5_no_similar_characters (length : Nat) (ul uu ud us : Bool) (r : RandSource)
    (pw : List Char)
    (h : (generate_password length ul uu ud us true r).1 = Except.ok pw) :
    ∀ c ∈ pw, ¬(c = 'l' ∨ c = 'o' ∨ c = 'I' ∨ c = 'O' ∨ c = '0' ∨ c = '1') := by
  obtain ⟨hv, hpw, -⟩ := generate_password_ok h
  have henabled := (validate_parameters_none hv).2.2
  have hne := pool_ne_nil ul uu ud us true henabled
  intro c hc
  refine pool_no_similar ul uu ud us c ?_
  rw [hpw] at hc
  exact generate_secure_password_mem _ hne _ _ c hc

/-- Witness for C5: a lowercase-only request of length 8 with
exclusion on. -/
theorem c5_no_similar_characters_witness :
    (generate_password 8 true false false false true (fun _ => 0)).1 =
      Except.ok (List.replicate 8 'a') ∧
    ∀ c ∈ List.replicate 8 'a',
      ¬(c = 'l' ∨ c = 'o' ∨ c = 'I' ∨ c = 'O' ∨ c = '0' ∨ c = '1') :=
  ⟨rfl, c5_no_similar_characters 8 true false false false (fun _ => 0)
    (List.replicate 8 'a') rfl⟩

/-- Claim C6: the strength report computes exactly the score formula
and the threshold label of the specification, the score never exceeds
100, and the empty string yields score 0, Very Weak, and all four
presence booleans false. -/
theorem c6_strength_formula (password : List Char) :
    (estimate_password_strength password).score = spec_score password ∧
    (estimate_password_strength password).strength = spec_label (spec_score password) ∧
    (estimate_password_strength password).score ≤ 100 ∧
    estimate_password_strength [] = ⟨0, "Very Weak", 0, false, false, false, false⟩ := by
  refine ⟨rfl, rfl, ?_, rfl⟩
  have hm : min (password.length * 4) 40 ≤ 40 := Nat.min_le_right _ _
  show spec_score password ≤ 100
  unfold spec_score
  split_ifs <;> omega

/-- The batch loop on a success: it produced exactly its iteration
count of passwords, and each one is the output of a generate_password
call on some random stream. -/
theorem generate_many_ok {n length : Nat} {ul uu ud us es : Bool}
    {r r2 : RandSource} {pws : List (List Char)}
    (h : generate_many n length ul uu ud us es r = (Except.ok pws, r2)) :
    pws.length = n ∧
    ∀ pw ∈ pws, ∃ r0 r1, generate_password length ul uu ud us es r0 = (Except.ok pw, r1) := by
  induction n generalizing r pws r2 with
  | zero =>
    unfold generate_many at h
    injection h with ha hb
    injection ha with ha
    subst ha
    exact ⟨rfl, by simp⟩
  | succ k ih =>
    unfold generate_many at h
    split at h
    · simp at h
    · rename_i pw r1 heq
      split at h
      · simp at h
      · rename_i pws2 r2x heq2
        simp only [Prod.mk.injEq, Except.ok.injEq] at h
        obtain ⟨rfl, rfl⟩ := h
        obtain ⟨ihlen, ihall⟩ := ih heq2
        refine ⟨by simp [ihlen], ?_⟩
        intro q hq
        rcases List.mem_cons.mp hq with rfl | hq2
        · exact ⟨r, r1, heq⟩
        · exact ihall q hq2

/-- Claim C7: a successful batch call with a nonnegative count returns
exactly count passwords, each the output of an independent
generate_password call with the same request parameters, and a count
of zero returns the empty sequence without error. -/
theorem c7_batch_count (count : Int) (length : Nat) (ul uu ud us es : Bool)
    (r r2 : RandSource) (pws : List (List Char))
    (hc : 0 ≤ count)
    (h : generate_multiple_passwords count length ul uu ud us es r = (Except.ok pws, r2)) :
    (pws.length : Int) = count ∧
    (∀ pw ∈ pws, ∃ r0 r1, generate_password length ul uu ud us es r0 = (Except.ok pw, r1)) ∧
    generate_multiple_passwords 0 length ul uu ud us es r = (Except.ok [], r) := by
  unfold generate_multiple_passwords at h
  obtain ⟨hlen, hall⟩ := generate_many_ok h
  refine ⟨?_, hall, rfl⟩
  rw [hlen]
  exact Int.toNat_of_nonneg hc

/-- Witness for C7: a batch of two lowercase-only passwords. -/
theorem c7_batch_count_witness :
    ((List.replicate 2 (List.replicate 8 'a')).length : Int) = 2 ∧
    (∀ pw ∈ List.replicate 2 (List.replicate 8 'a'), ∃ r0 r1,
        generate_password 8 true false false false false r0 = (Except.ok pw, r1)) ∧
    generate_multiple_passwords 0 8 true false false false false (fun _ => 0) =
      (Except.ok [], fun _ => 0) :=
  c7_batch_count 2 8 true false false false false (fun _ => 0)
    (RandSource.drop (fun _ => 0) 16) (List.replicate 2 (List.replicate 8 'a'))
    (by decide) rfl

/-- Claim C8: strength estimation is pure and total: equal inputs give
identical reports, and every input (the empty string included)
produces a report whose label is one of the five defined labels,
with no error outcome. -/
theorem c8_pure_deterministic (s t : List Char) (h : s = t) :
    estimate_password_strength s = estimate_password_strength t ∧
    ((estimate_password_strength s).strength = "Very Strong" ∨
     (estimate_password_strength s).strength = "Strong" ∨
     (estimate_password_strength s).strength = "Moderate" ∨
     (estimate_password_strength s).strength = "Weak" ∨
     (estimate_password_strength s).strength = "Very Weak") := by
  subst h
  refine ⟨rfl, ?_⟩
  simp only [estimate_password_strength]
  split_ifs <;> simp

/-- Witness for C8 on the one-character string a. -/
theorem c8_pure_deterministic_witness :
    estimate_password_strength ['a'] = estimate_password_strength ['a'] ∧
    ((estimate_password_strength ['a']).strength = "Very Strong" ∨
     (estimate_password_strength ['a']).strength = "Strong" ∨
     (estimate_password_strength ['a']).strength = "Moderate" ∨
     (estimate_password_strength ['a']).strength = "Weak" ∨
     (estimate_password_strength ['a']).strength = "Very Weak") :=
  c8_pure_deterministic ['a'] ['a'] rfl

/-- Claim C10: a negative count makes generate_multiple_passwords
return the empty sequence without error, exactly as count zero does,
because range(count) is empty for a nonpositive count. -/
theorem c10_negative_count (count : Int) (length : Nat) (ul uu ud us es : Bool)
    (r : RandSource) (h : count < 0) :
    generate_multiple_passwords count length ul uu ud us es r = (Except.ok [], r) ∧
    generate_multiple_passwords count length ul uu ud us es r =
      generate_multiple_passwords 0 length ul uu ud us es r := by
  have h0 : count.toNat = 0 := Int.toNat_of_nonpos (le_of_lt h)
  unfold generate_multiple_passwords
  rw [h0]
  exact ⟨rfl, rfl⟩

/-- Witness for C10 at count minus three. -/
theorem c10_negative_count_witness :
    generate_multiple_passwords (-3) 8 true true true true true (fun _ => 0) =
      (Except.ok [], fun _ => 0) ∧
    generate_multiple_passwords (-3) 8 true true true true true (fun _ => 0) =
      generate_multiple_passwords 0 8 true true true true true (fun _ => 0) :=
  c10_negative_count (-3) 8 true true true true true (fun _ => 0) (by decide)

end PasswordGenerator
